import Mathlib

set_option autoImplicit false

namespace Nahrim

/-! Shallow embedding of the NAHRIM harvesting pipelines
(`src/NAHRIM/...`): Python-dict records become ordered association
lists, HTML tables become lists of cell-text rows, and the network /
OBS / CDM collaborators become explicit parameters. -/

/-- `strStarts pat cs`: `pat` occurs at the start of `cs`
(character-list version of Python `str.startswith`). -/
def strStarts : List Char → List Char → Bool
  | [], _ => true
  | _ :: _, [] => false
  | a :: as, b :: bs => a == b && strStarts as bs

/-- `charsHaveSub pat cs`: `pat` occurs contiguously somewhere in `cs`. -/
def charsHaveSub (pat : List Char) : List Char → Bool
  | [] => strStarts pat []
  | c :: cs => strStarts pat (c :: cs) || charsHaveSub pat cs

/-- Python `pat in hay` on strings (substring test). -/
def strHasSub (hay pat : String) : Bool :=
  charsHaveSub pat.toList hay.toList

/-- Python `str.isdigit` restricted to decimal digits: non-empty and
every character a digit. -/
def pyIsdigit (s : String) : Bool :=
  !s.isEmpty && s.toList.all Char.isDigit

/-- Python-dict records: ordered association lists (insertion order
preserved, as for `dict` in Python 3.7+). -/
abbrev Item := List (String × String)

/-- Python `d[k] = v` on a duplicate-free ordered dict: overwrite in
place if the key exists, else append at the end. -/
def dictSet {α : Type} (d : List (String × α)) (k : String) (v : α) :
    List (String × α) :=
  if d.any (fun p => p.1 == k) then
    d.map (fun p => if p.1 == k then (k, v) else p)
  else
    d ++ [(k, v)]

/-- The key list of a record, in insertion order (Python `d.keys()`). -/
def keys {α : Type} (d : List (String × α)) : List String :=
  d.map Prod.fst

/-- Python `d.get(k, dflt)` for string-valued records. -/
def lookupD (d : Item) (k : String) (dflt : String) : String :=
  ((d.find? (fun p => p.1 == k)).map Prod.snd).getD dflt

/-- Python `csv` minimal quoting: a field is quoted iff it contains the
delimiter, the quote char, or a newline character. -/
def csvNeedsQuote (s : String) : Bool :=
  s.toList.any (fun c => c == ',' || c == '"' || c == '\n' || c == '\r')

/-- Encode one CSV field (quote and double internal quotes if needed). -/
def csvField (s : String) : String :=
  if csvNeedsQuote s then
    "\"" ++ String.join (s.toList.map
      (fun c => if c == '"' then "\"\"" else String.singleton c)) ++ "\""
  else s

/-- One CSV line with the `csv` module's default `\r\n` terminator. -/
def csvLine (fs : List String) : String :=
  String.intercalate "," (fs.map csvField) ++ "\r\n"

end Nahrim

namespace Nahrim.Rainfall

/-! Embedding of `src/NAHRIM/rainfall_fn(bs-csv)/rainfall_fg1.py`
(the `rainfall_fn(bs)/rainfall_fg.py` variant has the identical table
selection, parsing and retry logic). -/

/-- An HTML `<table>` as the scraper sees it: the flattened text
`" ".join(table.stripped_strings)` and the rows, each row the list of
its `th`/`td` cell texts (`" ".join(cell.stripped_strings)`). -/
structure HTable where
  text : String
  rows : List (List String)
deriving Repr, DecidableEq

/-- The hint test of `pick_rainfall_table`: the flattened table text
contains both `"Bil."` and `"ID Stesen"`. -/
def tableMatches (t : HTable) : Bool :=
  strHasSub t.text "Bil." && strHasSub t.text "ID Stesen"

/-- `pick_rainfall_table`: no tables → `None`; else the first table
whose text contains both hint tokens; else the last table. -/
def pickRainfallTable (tables : List HTable) : Option HTable :=
  match tables with
  | [] => none
  | _ =>
    match tables.find? tableMatches with
    | some t => some t
    | none => tables.getLast?

/-- The dual-header schema of `parse_state_page`:
`top_texts[0:5] + bottom_texts[:] + top_texts[-2:]`. -/
def reconcileColumns (top bottom : List String) : List String :=
  top.take 5 ++ bottom ++ top.drop (top.length - 2)

/-- Build one scraped item: start from
`{"state_code": sc, "state_name": sn}` and assign
`item[col] = value` for each `(col, value)` in `zip(columns, tds)`. -/
def buildItem (sc sn : String) (columns tds : List String) : Item :=
  (columns.zip tds).foldl (fun d kv => dictSet d kv.1 kv.2)
    [("state_code", sc), ("state_name", sn)]

/-- Row conversion inside `parse_state_page`: rows whose cell count
differs from the column count are skipped. -/
def rowItem (columns : List String) (sc sn : String) (tds : List String) :
    Option Item :=
  if tds.length = columns.length then some (buildItem sc sn columns tds)
  else none

/-- The body of `parse_state_page` once a table is selected: fewer than
3 rows (2 headers + ≥1 data row) yields `[]`; else rows 0 and 1 are
reconciled into the schema and the remaining rows are converted. -/
def parseTable (rows : List (List String)) (sc sn : String) : List Item :=
  if rows.length < 3 then []
  else
    let top := rows.getD 0 []
    let bottom := rows.getD 1 []
    let columns := reconcileColumns top bottom
    (rows.drop 2).filterMap (rowItem columns sc sn)

/-- `parse_state_page`: select a table with `pick_rainfall_table`
(`None` → `[]`) and parse it. -/
def parseStatePage (tables : List HTable) (sc sn : String) : List Item :=
  match pickRainfallTable tables with
  | none => []
  | some table => parseTable table.rows sc sn

/-- The first-seen union of keys across all items, as computed by the
first loop of `items_to_csv`. -/
def collectKeys (allItems : List Item) : List String :=
  allItems.foldl
    (fun acc item => item.foldl
      (fun a kv => if a.contains kv.1 then a else a ++ [kv.1]) acc)
    []

/-- The move-to-front loop of `items_to_csv`: for each of
`"state_code"`, `"state_name"` in that order, if present, pop it and
re-insert it at index 0. -/
def moveMetaFront (fns : List String) : List String :=
  ["state_code", "state_name"].foldl
    (fun a k => if a.contains k then k :: a.erase k else a) fns

/-- The field-name list `items_to_csv` passes to `csv.DictWriter`. -/
def buildFieldnames (allItems : List Item) : List String :=
  moveMetaFront (collectKeys allItems)

/-- `items_to_csv`: empty input → the empty string; else a header line
followed by one line per item (missing keys written as `""`). -/
def itemsToCsv (allItems : List Item) : String :=
  if allItems.isEmpty then ""
  else
    let fns := buildFieldnames allItems
    csvLine fns ++ String.join
      (allItems.map (fun it => csvLine (fns.map (fun k => lookupD it k ""))))

/-- One `requests.get` attempt in the handler's retry loop: either an
exception or a response with an HTTP status, as a function of the
attempt number and the timeout passed to `requests.get`. -/
inductive AttemptOutcome where
  | raised (msg : String)
  | resp (status : Nat)
deriving Repr, DecidableEq

/-- `MAX_RETRIES` in `handler`. -/
def MAX_RETRIES : Nat := 3

/-- `REQUEST_TIMEOUT` in `handler` (seconds). -/
def REQUEST_TIMEOUT : Nat := 5

/-- The retry loop `for attempt in range(1, MAX_RETRIES + 1)`: run the
listed attempts in order, stopping at the first one that returns a
response (whatever its status); every call uses `REQUEST_TIMEOUT`.
Returns the response status and the number of the attempt that
produced it, or `none` when every attempt raised. -/
def runAttempts (outcome : Nat → Nat → AttemptOutcome) :
    List Nat → Option (Nat × Nat)
  | [] => none
  | a :: rest =>
    match outcome a REQUEST_TIMEOUT with
    | .resp s => some (s, a)
    | .raised _ => runAttempts outcome rest

/-- The whole per-state fetch of the rainfall handler. -/
def fetchWithRetry (outcome : Nat → Nat → AttemptOutcome) :
    Option (Nat × Nat) :=
  runAttempts outcome (List.range' 1 MAX_RETRIES)

/-- What the handler does with one state's fetch result. -/
inductive StateStep where
  | skippedNoResp
  | skippedHTTP (status : Nat)
  | parsed
deriving Repr, DecidableEq

/-- After the retry loop: `resp is None` → skip the state; a non-200
status → skip the state (no further attempt); else parse the page. -/
def processFetch (outcome : Nat → Nat → AttemptOutcome) : StateStep :=
  match fetchWithRetry outcome with
  | none => .skippedNoResp
  | some (s, _) => if s ≠ 200 then .skippedHTTP s else .parsed

end Nahrim.Rainfall

namespace Nahrim.WaterLevel

/-! Embedding of `src/NAHRIM/waterlevel_fg(csv)/waterlevel_fg1.py`
(the `waterlevel_fg.py` variant has the identical legacy row logic). -/

/-- A `<td>` of the legacy table: its stripped text plus the stripped
text of a contained `<a>` link, when one exists (used for column 7). -/
structure LCell where
  text : String
  link : Option String
deriving Repr, DecidableEq

/-- `cells[i]` text with Python-style positional access (rows reaching
this point have exactly 12 cells, so the default is never used). -/
def cellText (cells : List LCell) (i : Nat) : String :=
  (cells.getD i ⟨"", none⟩).text

/-- Row conversion in `_scrape_state_legacy`: skip rows without exactly
12 `<td>`s, skip rows whose first cell is not all-digits, take the link
text for `aras_air` when present, and build the fixed-shape record. -/
def legacyRow (stateName ts : String) (cells : List LCell) : Option Item :=
  if cells.length ≠ 12 then none
  else
    let bil := cellText cells 0
    if !pyIsdigit bil then none
    else
      let arasAir :=
        match (cells.getD 7 ⟨"", none⟩).link with
        | some a => a
        | none => cellText cells 7
      some [
        ("state_name", stateName),
        ("bil", bil),
        ("id_stesen", cellText cells 1),
        ("nama_stesen", cellText cells 2),
        ("daerah", cellText cells 3),
        ("lembangan", cellText cells 4),
        ("sub_lembangan", cellText cells 5),
        ("kemaskini_terakhir", cellText cells 6),
        ("aras_air_m", arasAir),
        ("ambang_normal", cellText cells 8),
        ("ambang_waspada", cellText cells 9),
        ("ambang_amaran", cellText cells 10),
        ("ambang_bahaya", cellText cells 11),
        ("scraped_timestamp", ts)]

/-- The row loop of `_scrape_state_legacy` over the `<tbody>` rows. -/
def legacyRows (stateName ts : String) (rows : List (List LCell)) :
    List Item :=
  rows.filterMap (legacyRow stateName ts)

/-- Row conversion in `_scrape_state_new`: skip rows with fewer than 12
`<td>`s (rows with more are kept and read positionally), skip rows
whose first cell is not all-digits, and build the fixed-shape record
from cells 0..11. -/
def newRow (stateName ts : String) (tds : List String) : Option Item :=
  if tds.length < 12 then none
  else
    let bil := tds.getD 0 ""
    if !pyIsdigit bil then none
    else
      some [
        ("state_name", stateName),
        ("bil", tds.getD 0 ""),
        ("id_stesen", tds.getD 1 ""),
        ("nama_stesen", tds.getD 2 ""),
        ("daerah", tds.getD 3 ""),
        ("lembangan", tds.getD 4 ""),
        ("sub_lembangan", tds.getD 5 ""),
        ("kemaskini_terakhir", tds.getD 6 ""),
        ("aras_air_m", tds.getD 7 ""),
        ("ambang_normal", tds.getD 8 ""),
        ("ambang_waspada", tds.getD 9 ""),
        ("ambang_amaran", tds.getD 10 ""),
        ("ambang_bahaya", tds.getD 11 ""),
        ("scraped_timestamp", ts)]

/-- The row loop of `_scrape_state_new`. -/
def newRows (stateName ts : String) (rows : List (List String)) :
    List Item :=
  rows.filterMap (newRow stateName ts)

/-- The heterogeneous result dicts of `_scrape_state_legacy` /
`_scrape_state_new` / `scrape_state_data`: each field present only when
the corresponding dict key is. -/
structure StateResult where
  state : Option String := none
  count : Option Nat := none
  data : Option (List Item) := none
  error : Option String := none
deriving Repr, DecidableEq

/-- `result.get("count", 0)`. -/
def getCount (r : StateResult) : Nat :=
  r.count.getD 0

/-- The combined error message built in step 3 of `scrape_state_data`:
start from `"Unknown error"`, overwrite with `"Legacy: ..."` when the
legacy result carries an error, then append `"; New: ..."` when the
new result carries one. -/
def combinedError (legacyResult newResult : StateResult) : String :=
  let m0 := "Unknown error"
  let m1 :=
    match legacyResult.error with
    | some e => "Legacy: " ++ e
    | none => m0
  match newResult.error with
  | some e => m1 ++ "; New: " ++ e
  | none => m1

/-- `scrape_state_data`: try the legacy source; if its `count` is
positive return it as is, otherwise evaluate the new source; if that
yields a positive `count` return it, else return the combined-error
zero-row failure dict. The new source is passed as a thunk so that its
evaluation happens only on the fallback path; the returned flag records
whether it was evaluated. -/
def scrapeStateData (stateName : String) (legacyResult : StateResult)
    (newSource : Unit → StateResult) : StateResult × Bool :=
  if getCount legacyResult > 0 then
    (legacyResult, false)
  else
    let newResult := newSource ()
    if getCount newResult > 0 then
      (newResult, true)
    else
      ({ state := some stateName, count := some 0, data := some [],
         error := some (combinedError legacyResult newResult) }, true)

/-- `items_to_csv` of the water-level pipeline (textually identical to
the rainfall one). -/
def itemsToCsv (allItems : List Item) : String :=
  if allItems.isEmpty then ""
  else
    let fns := Rainfall.buildFieldnames allItems
    csvLine fns ++ String.join
      (allItems.map (fun it => csvLine (fns.map (fun k => lookupD it k ""))))

/-- Outcome of the OBS upload step as the handler observes it:
`upload_to_obs` either returns an object key or raises. -/
abbrev UploadOutcome := Except String String

/-- Outcome of `start_cdm_job`: a parsed response or a raised error. -/
abbrev TriggerOutcome := Except String String

/-- Steps 3–4 of the water-level `handler`: `upload_to_obs` raising
aborts the run (status 500) before `start_cdm_job`; only after a
successful upload is the CDM job started (whose own failure also turns
into status 500). Returns the status code and whether the trigger
collaborator was invoked. -/
def wlPublish (upload : UploadOutcome)
    (trigger : Unit → TriggerOutcome) : Nat × Bool :=
  match upload with
  | .error _ => (500, false)
  | .ok _ =>
    match trigger () with
    | .error _ => (500, true)
    | .ok _ => (200, true)

end Nahrim.WaterLevel

namespace Nahrim.DemLevel

/-! Embedding of `src/NAHRIM/demlevel/demlevel_fg1.py`. -/

/-- Record values in the dam scraper: cell texts are strings, while the
two derived category labels may be Python `None`. -/
abbrev DItem := List (String × Option String)

/-- A `<td>` of the dam table: its text and the lowercased `style`
attribute string that `extract_colour_and_label` inspects (taken from a
contained `<span>` when present, else from the `<td>` itself). -/
structure DCell where
  text : String
  styleSrc : String
deriving Repr, DecidableEq

/-- `COLOR_MAP` in dict order. -/
def colorMap : List (String × String) :=
  [("green", "Paras Normal"), ("orange", "Paras Waspada"),
   ("yellow", "Paras Amaran"), ("red", "Paras Kritikal")]

/-- `extract_colour_and_label`: the first `COLOR_MAP` colour whose
`background:` or `background-color:` form occurs in the style string;
its label, or `None` when no colour is recognised. -/
def extractLabel (style : String) : Option String :=
  (colorMap.find? (fun p =>
    strHasSub style ("background:" ++ p.1)
    || strHasSub style ("background-color:" ++ p.1))).map Prod.snd

/-- The record built for one accepted dam row: assign
`data_point[col] = values[i]` for each header column with `i <
len(values)` (equivalently, over `zip(base_columns, values)`), then the
two derived labels and the state metadata. -/
def buildDamItem (baseColumns values : List String)
    (semalam semasa : Option String) (stateId : Nat) (stateName : String) :
    DItem :=
  let d0 := (baseColumns.zip (values.map some)).foldl
    (fun d kv => dictSet d kv.1 kv.2) []
  let d1 := dictSet d0 "Kategori Simpanan Semalam" semalam
  let d2 := dictSet d1 "Kategori Simpanan Semasa" semasa
  let d3 := dictSet d2 "state_id" (some (toString stateId))
  dictSet d3 "state_name" (some stateName)

/-- Row conversion in `scrape_dam_data`: skip empty rows and rows with
fewer than 8 cells; otherwise build the record, deriving the two
category labels from cells 6 and 7. -/
def damRow (baseColumns : List String) (stateId : Nat) (stateName : String)
    (tds : List DCell) : Option DItem :=
  if tds.isEmpty then none
  else if tds.length < 8 then none
  else
    let values := tds.map DCell.text
    let semalam := extractLabel (tds.getD 6 ⟨"", ""⟩).styleSrc
    let semasa := extractLabel (tds.getD 7 ⟨"", ""⟩).styleSrc
    some (buildDamItem baseColumns values semalam semasa stateId stateName)

/-- The row loop of `scrape_dam_data` over the `<tbody>` rows. -/
def damRows (baseColumns : List String) (stateId : Nat) (stateName : String)
    (rows : List (List DCell)) : List DItem :=
  rows.filterMap (damRow baseColumns stateId stateName)

/-- The CSV field-name construction in `save_to_obs`: no rows → `[]`;
else the first row's keys without the four known extra columns, then
those extra columns that the first row actually has, in fixed order. -/
def demFieldnames (rows : List DItem) : List String :=
  match rows with
  | [] => []
  | firstRow :: _ =>
    let extraCols := ["Kategori Simpanan Semalam", "Kategori Simpanan Semasa",
                      "state_id", "state_name"]
    let baseCols := (keys firstRow).filter (fun k => !extraCols.contains k)
    baseCols ++ extraCols.filter (fun c => (keys firstRow).contains c)

/-- Python `None` prints as the empty field; strings as themselves. -/
def optField (v : Option String) : String :=
  v.getD ""

/-- `d.get(k)` on a `DItem`, flattened to a CSV cell. -/
def lookupOpt (d : DItem) (k : String) : String :=
  optField (((d.find? (fun p => p.1 == k)).map Prod.snd).getD none)

/-- The CSV text `save_to_obs` uploads: with an empty field-name list it
writes nothing at all (the code comments this case as "still write an
empty CSV with no header"); else header plus one line per row. -/
def demCsvContent (rows : List DItem) : String :=
  let fns := demFieldnames rows
  if fns.isEmpty then ""
  else
    csvLine fns ++ String.join
      (rows.map (fun r => csvLine (fns.map (lookupOpt r))))

/-- The `save_to_obs` result as the handler sees it. -/
structure UploadResult where
  success : Bool
  error : Option String
deriving Repr, DecidableEq

/-- The publish tail of the demlevel `handler`: a failed upload raises
(`statusCode` 500) before `start_cdm_job`; only on upload success is
the CDM job started, whose own failure also yields 500. Returns the
status code and whether the trigger collaborator was invoked. -/
def demPublish (obsResult : UploadResult)
    (trigger : Unit → Except String String) : Nat × Bool :=
  if !obsResult.success then (500, false)
  else
    match trigger () with
    | .error _ => (500, true)
    | .ok _ => (200, true)

end Nahrim.DemLevel

namespace Nahrim.WaterQuality

/-! Embedding of `src/NAHRIM/waterquality(csv)/waterquality_fg1.py`. -/

/-- Lexicographic Bool comparison of char lists by code point (the
order Python string comparison uses). -/
def listLeB : List Char → List Char → Bool
  | [], _ => true
  | _ :: _, [] => false
  | a :: as, b :: bs =>
    if a.toNat < b.toNat then true
    else if b.toNat < a.toNat then false
    else listLeB as bs

/-- Python `a <= b` on strings. -/
def strLeB (a b : String) : Bool :=
  listLeB a.toList b.toList

/-- Insert a string into an ascending-sorted list. -/
def insSorted (s : String) : List String → List String
  | [] => [s]
  | h :: t => if strLeB s h then s :: h :: t else h :: insSorted s t

/-- Ascending insertion sort (the order `sorted(...)` produces). -/
def sortStrings : List String → List String
  | [] => []
  | h :: t => insSorted h (sortStrings t)

/-- The `headers` set accumulated by `scrape_waterquality`
(`headers.update(row.keys())` per row), as a duplicate-free list. -/
def headerSet (rows : List Item) : List String :=
  rows.foldl
    (fun acc r => (keys r).foldl
      (fun a k => if a.contains k then a else a ++ [k]) acc)
    []

/-- `headers_list = sorted(list(headers))` in `scrape_waterquality`:
the alphabetically sorted union of all row keys. -/
def headersList (rows : List Item) : List String :=
  sortStrings (headerSet rows)

/-- The publish tail of the waterquality `handler`: the OBS upload
result is only logged, `start_cdm_job` is then invoked unconditionally
(its failure raises → 500); after a successful trigger the status is
200 when the upload succeeded and 206 ("some steps failed") when it
did not. Returns the status code and whether the trigger collaborator
was invoked. -/
def wqPublish (obsSuccess : Bool)
    (trigger : Unit → Except String String) : Nat × Bool :=
  match trigger () with
  | .error _ => (500, true)
  | .ok _ => (if obsSuccess then 200 else 206, true)

end Nahrim.WaterQuality

namespace Nahrim

/-! ### Helper lemmas -/

lemma find?_first {α : Type} (p : α → Bool) (pre : List α) (t : α)
    (post : List α) (ht : p t = true) (hpre : ∀ u ∈ pre, p u = false) :
    (pre ++ t :: post).find? p = some t := by
  induction pre with
  | nil => simp [List.find?_cons_of_pos, ht]
  | cons a as ih =>
    have ha : p a = false := hpre a (by simp)
    rw [List.cons_append, List.find?_cons_of_neg _ (by simp [ha])]
    exact ih (fun u hu => hpre u (by simp [hu]))

lemma runAttempts_congr (f g : Nat → Nat → Rainfall.AttemptOutcome)
    (h : ∀ a, f a Rainfall.REQUEST_TIMEOUT = g a Rainfall.REQUEST_TIMEOUT) :
    ∀ l, Rainfall.runAttempts f l = Rainfall.runAttempts g l := by
  intro l
  induction l with
  | nil => rfl
  | cons a rest ih =>
    rw [Rainfall.runAttempts, Rainfall.runAttempts, ← h a]
    cases f a Rainfall.REQUEST_TIMEOUT <;> simp [ih]

/-! ### Claim theorems -/

/-- **C7.** The rainfall table locator scans tables in document order
and picks the first whose flattened text contains both hint tokens
`"Bil."` and `"ID Stesen"`; when no table matches it picks the last
table; and a document with zero tables yields no table at all. -/
theorem rainfall_table_locator (tables : List Rainfall.HTable) :
    (tables = [] → Rainfall.pickRainfallTable tables = none)
    ∧ (∀ pre t post, tables = pre ++ t :: post →
        Rainfall.tableMatches t = true →
        (∀ u ∈ pre, Rainfall.tableMatches u = false) →
        Rainfall.pickRainfallTable tables = some t)
    ∧ ((∀ u ∈ tables, Rainfall.tableMatches u = false) →
        ∀ t pre, tables = pre ++ [t] →
        Rainfall.pickRainfallTable tables = some t) := by
  refine ⟨fun h => by subst h; rfl, ?_, ?_⟩
  · intro pre t post htab ht hpre
    subst htab
    have hfind := find?_first Rainfall.tableMatches pre t post ht hpre
    cases pre with
    | nil =>
      simp only [List.nil_append] at hfind ⊢
      simp [Rainfall.pickRainfallTable, hfind]
    | cons a as =>
      simp only [List.cons_append] at hfind ⊢
      simp [Rainfall.pickRainfallTable, hfind]
  · intro hall t pre htab
    subst htab
    have hfind : (pre ++ [t]).find? Rainfall.tableMatches = none := by
      rw [List.find?_eq_none]
      intro x hx
      simp [hall x hx]
    have hlast : (pre ++ [t]).getLast? = some t := by
      simp [List.getLast?_concat]
    cases pre with
    | nil =>
      simp only [List.nil_append] at hfind hlast ⊢
      simp [Rainfall.pickRainfallTable, hfind, hlast]
    | cons a as =>
      simp only [List.cons_append] at hfind hlast ⊢
      simp [Rainfall.pickRainfallTable, hfind, hlast]

/-- **C7 witness.** The locator at concrete inputs: zero tables → none;
a matching second table is chosen over a non-matching first and a later
one; with no matching table, the last one is chosen. -/
theorem rainfall_table_locator_witness :
    Rainfall.pickRainfallTable [] = none
    ∧ Rainfall.pickRainfallTable
        [⟨"nav menu", []⟩, ⟨"Bil. x ID Stesen y", []⟩, ⟨"footer", []⟩]
        = some ⟨"Bil. x ID Stesen y", []⟩
    ∧ Rainfall.pickRainfallTable [⟨"header", []⟩, ⟨"content", []⟩]
        = some ⟨"content", []⟩ :=
  ⟨(rainfall_table_locator []).1 rfl,
   (rainfall_table_locator _).2.1 [⟨"nav menu", []⟩] ⟨"Bil. x ID Stesen y", []⟩
     [⟨"footer", []⟩] rfl (by decide) (by decide),
   (rainfall_table_locator _).2.2 (by decide) ⟨"content", []⟩
     [⟨"header", []⟩] rfl⟩

/-- **C6.** For every dual-header rainfall table, the reconciled schema
is the first 5 labels of header row 1, then all labels of header row 2,
then the last 2 labels of header row 1; and a table with fewer than 3
rows (2 header rows plus at least one data row) yields no records. -/
theorem dual_header_schema :
    (∀ p mid t bottom : List String, p.length = 5 → t.length = 2 →
      Rainfall.reconcileColumns (p ++ mid ++ t) bottom = p ++ bottom ++ t)
    ∧ (∀ rows sc sn, rows.length < 3 → Rainfall.parseTable rows sc sn = [])
    ∧ (∀ tables table sc sn,
        Rainfall.pickRainfallTable tables = some table →
        table.rows.length < 3 → Rainfall.parseStatePage tables sc sn = []) := by
  refine ⟨?_, ?_, ?_⟩
  · intro p mid t bottom hp ht
    unfold Rainfall.reconcileColumns
    have h1 : (p ++ mid ++ t).take 5 = p := by
      rw [List.append_assoc, ← hp, List.take_left]
    have h2 : (p ++ mid ++ t).drop ((p ++ mid ++ t).length - 2) = t := by
      have hl : (p ++ mid ++ t).length - 2 = (p ++ mid).length := by
        simp only [List.length_append, hp, ht]
        omega
      rw [hl, List.drop_left]
    rw [h1, h2]
  · intro rows sc sn h
    simp [Rainfall.parseTable, if_pos h]
  · intro tables table sc sn hpick hlen
    simp only [Rainfall.parseStatePage, hpick]
    simp [Rainfall.parseTable, if_pos hlen]

/-- **C6 witness.** The schema composition at a concrete dual-header
table, and the malformed cases at concrete short tables. -/
theorem dual_header_schema_witness :
    Rainfall.reconcileColumns
        (["Bil", "ID Stesen", "Nama Stesen", "Daerah", "Kemaskini"]
          ++ ["mid"] ++ ["Taburan", "Jumlah"])
        ["1/1", "2/1"]
      = ["Bil", "ID Stesen", "Nama Stesen", "Daerah", "Kemaskini"]
          ++ ["1/1", "2/1"] ++ ["Taburan", "Jumlah"]
    ∧ Rainfall.parseTable [["h1"], ["h2"]] "SEL" "Selangor" = []
    ∧ Rainfall.parseStatePage [⟨"only", [["h1"], ["h2"]]⟩] "SEL" "Selangor"
        = [] :=
  ⟨dual_header_schema.1 _ _ _ _ (by decide) (by decide),
   dual_header_schema.2.1 _ "SEL" "Selangor" (by decide),
   dual_header_schema.2.2 [⟨"only", [["h1"], ["h2"]]⟩] ⟨"only", [["h1"], ["h2"]]⟩
     "SEL" "Selangor" (by decide) (by decide)⟩

/-- **C9.** The rainfall handler's fetch: an attempt that returns any
HTTP response ends the retry loop at once (so a definitive non-200
response is never retried and skips the state immediately), a raised
error is retried up to `MAX_RETRIES = 3` times before the state is
given up, and only the behaviour of the attempts at the single
`REQUEST_TIMEOUT` value matters — every attempt uses the same timeout. -/
theorem fetch_retry_policy (outcome : Nat → Nat → Rainfall.AttemptOutcome) :
    (∀ s, outcome 1 Rainfall.REQUEST_TIMEOUT = .resp s →
      Rainfall.fetchWithRetry outcome = some (s, 1)
      ∧ (s ≠ 200 → Rainfall.processFetch outcome = .skippedHTTP s))
    ∧ ((∀ i, 1 ≤ i → i ≤ Rainfall.MAX_RETRIES →
        ∃ m, outcome i Rainfall.REQUEST_TIMEOUT = .raised m) →
      Rainfall.fetchWithRetry outcome = none
      ∧ Rainfall.processFetch outcome = .skippedNoResp)
    ∧ (∀ outcome2 : Nat → Nat → Rainfall.AttemptOutcome,
      (∀ a, outcome a Rainfall.REQUEST_TIMEOUT
          = outcome2 a Rainfall.REQUEST_TIMEOUT) →
      Rainfall.fetchWithRetry outcome = Rainfall.fetchWithRetry outcome2) := by
  have hrange : List.range' 1 Rainfall.MAX_RETRIES = [1, 2, 3] := by decide
  refine ⟨?_, ?_, ?_⟩
  · intro s h1
    have hf : Rainfall.fetchWithRetry outcome = some (s, 1) := by
      rw [Rainfall.fetchWithRetry, hrange, Rainfall.runAttempts, h1]
    refine ⟨hf, fun hs => ?_⟩
    rw [Rainfall.processFetch, hf]
    simp [hs]
  · intro h
    obtain ⟨m1, h1⟩ := h 1 (by decide) (by decide)
    obtain ⟨m2, h2⟩ := h 2 (by decide) (by decide)
    obtain ⟨m3, h3⟩ := h 3 (by decide) (by decide)
    have hf : Rainfall.fetchWithRetry outcome = none := by
      rw [Rainfall.fetchWithRetry, hrange, Rainfall.runAttempts, h1,
        Rainfall.runAttempts, h2, Rainfall.runAttempts, h3, Rainfall.runAttempts]
    exact ⟨hf, by rw [Rainfall.processFetch, hf]⟩
  · intro outcome2 h
    rw [Rainfall.fetchWithRetry, Rainfall.fetchWithRetry]
    exact runAttempts_congr outcome outcome2 h _

/-- **C9 witness.** The retry policy at concrete attempt behaviours: a
first-attempt 404 ends fetching after one attempt and skips the state;
three raised errors exhaust the attempts; and two attempt functions
agreeing at the fixed timeout fetch identically. -/
theorem fetch_retry_policy_witness :
    Rainfall.fetchWithRetry (fun _ _ => .resp 404) = some (404, 1)
    ∧ Rainfall.processFetch (fun _ _ => .resp 404)
        = .skippedHTTP 404
    ∧ Rainfall.fetchWithRetry (fun _ _ => .raised "timeout") = none
    ∧ Rainfall.processFetch (fun _ _ => .raised "timeout") = .skippedNoResp
    ∧ Rainfall.fetchWithRetry (fun _ _ => .resp 200)
        = Rainfall.fetchWithRetry (fun _ t =>
            if t = Rainfall.REQUEST_TIMEOUT then .resp 200 else .raised "x") :=
  ⟨((fetch_retry_policy _).1 404 rfl).1,
   ((fetch_retry_policy _).1 404 rfl).2 (by decide),
   ((fetch_retry_policy (fun _ _ => .raised "timeout")).2.1
     (fun i _ _ => ⟨"timeout", rfl⟩)).1,
   ((fetch_retry_policy (fun _ _ => .raised "timeout")).2.1
     (fun i _ _ => ⟨"timeout", rfl⟩)).2,
   (fetch_retry_policy _).2.2 _ (fun a => by simp [Rainfall.REQUEST_TIMEOUT])⟩

/-- **C2.** `scrape_state_data` tries the legacy source first and
short-circuits on a positive record count: the legacy result is then
returned unchanged for every possible behaviour of the new source, and
the new source is not evaluated. When the legacy chain yields zero
records (explicit error or structurally valid zero rows alike) the new
source is tried; its ≥1-record result is returned unchanged. Only
after both sources are exhausted is the zero-row failure built, whose
reason concatenates the attempted sources' failure reasons
(`"Legacy: e1; New: e2"` when both carry one). -/
theorem fallback_orchestrator_policy (stateName : String)
    (legacyResult : WaterLevel.StateResult)
    (newSource : Unit → WaterLevel.StateResult) :
    (WaterLevel.getCount legacyResult > 0 →
      WaterLevel.scrapeStateData stateName legacyResult newSource
        = (legacyResult, false))
    ∧ (WaterLevel.getCount legacyResult = 0 →
        WaterLevel.getCount (newSource ()) > 0 →
      WaterLevel.scrapeStateData stateName legacyResult newSource
        = (newSource (), true))
    ∧ (WaterLevel.getCount legacyResult = 0 →
        WaterLevel.getCount (newSource ()) = 0 →
      WaterLevel.scrapeStateData stateName legacyResult newSource
        = ({ state := some stateName, count := some 0, data := some [],
             error := some (WaterLevel.combinedError legacyResult
               (newSource ())) }, true)
      ∧ (∀ e1 e2, legacyResult.error = some e1 →
          (newSource ()).error = some e2 →
          WaterLevel.combinedError legacyResult (newSource ())
            = "Legacy: " ++ e1 ++ "; New: " ++ e2)) := by
  refine ⟨?_, ?_, ?_⟩
  · intro h
    simp [WaterLevel.scrapeStateData, h]
  · intro h0 h1
    simp [WaterLevel.scrapeStateData, h0, h1]
  · intro h0 h1
    refine ⟨by simp [WaterLevel.scrapeStateData, h0, h1], ?_⟩
    intro e1 e2 he1 he2
    simp [WaterLevel.combinedError, he1, he2]

/-- **C2 witness.** The orchestrator at concrete source results: a
2-record legacy result is returned unchanged with the new source
unevaluated; a legacy error followed by a 1-record new result returns
the new result; two errors produce the concatenated failure reason. -/
theorem fallback_orchestrator_policy_witness :
    WaterLevel.scrapeStateData "Johor"
        { state := some "Johor", count := some 2,
          data := some [[("bil", "1")], [("bil", "2")]] }
        (fun _ => { error := some "unused" })
      = ({ state := some "Johor", count := some 2,
           data := some [[("bil", "1")], [("bil", "2")]] }, false)
    ∧ WaterLevel.scrapeStateData "Johor" { error := some "boom" }
        (fun _ => { state := some "Johor", count := some 1,
                    data := some [[("bil", "1")]] })
      = ({ state := some "Johor", count := some 1,
           data := some [[("bil", "1")]] }, true)
    ∧ WaterLevel.scrapeStateData "Johor" { error := some "e1" }
        (fun _ => { error := some "e2" })
      = ({ state := some "Johor", count := some 0, data := some [],
           error := some "Legacy: e1; New: e2" }, true) := by
  refine ⟨(fallback_orchestrator_policy "Johor" _ _).1 (by decide),
    (fallback_orchestrator_policy "Johor" _ _).2.1 (by decide) (by decide),
    ?_⟩
  have h := (fallback_orchestrator_policy "Johor" { error := some "e1" }
    (fun _ => { error := some "e2" })).2.2 (by decide) (by decide)
  rw [h.1, h.2 "e1" "e2" rfl rfl]
  rfl

/-- **C10.** In both water-level scrapers, a row with an acceptable
cell count is still excluded unless its first cell is a non-empty
all-digit string; consequently every emitted record's `bil` field is a
non-empty numeric string. -/
theorem waterlevel_bil_numeric :
    (∀ sn ts rows item, item ∈ WaterLevel.legacyRows sn ts rows →
      ∃ b, List.lookup "bil" item = some b ∧ pyIsdigit b = true)
    ∧ (∀ sn ts rows item, item ∈ WaterLevel.newRows sn ts rows →
      ∃ b, List.lookup "bil" item = some b ∧ pyIsdigit b = true)
    ∧ (∀ sn ts cells, cells.length = 12 →
        pyIsdigit (WaterLevel.cellText cells 0) = false →
        WaterLevel.legacyRow sn ts cells = none)
    ∧ (∀ sn ts tds, 12 ≤ tds.length →
        pyIsdigit (tds.getD 0 "") = false →
        WaterLevel.newRow sn ts tds = none) := by
  refine ⟨?_, ?_, ?_, ?_⟩
  · intro sn ts rows item hmem
    obtain ⟨cells, _, hf⟩ := List.mem_filterMap.mp hmem
    rw [WaterLevel.legacyRow] at hf
    split at hf
    · exact absurd hf (by simp)
    · by_cases hd : pyIsdigit (WaterLevel.cellText cells 0) = true
      · simp only [hd, Bool.not_true, Bool.false_eq_true, if_false,
          Option.some.injEq] at hf
        refine ⟨WaterLevel.cellText cells 0, ?_, hd⟩
        rw [← hf]
        simp [List.lookup]
      · rw [Bool.not_eq_true] at hd
        simp [hd] at hf
  · intro sn ts rows item hmem
    obtain ⟨tds, _, hf⟩ := List.mem_filterMap.mp hmem
    rw [WaterLevel.newRow] at hf
    split at hf
    · exact absurd hf (by simp)
    · by_cases hd : pyIsdigit (tds.getD 0 "") = true
      · simp only [hd, Bool.not_true, Bool.false_eq_true, if_false,
          Option.some.injEq] at hf
        refine ⟨tds.getD 0 "", ?_, hd⟩
        rw [← hf]
        simp [List.lookup]
      · rw [Bool.not_eq_true] at hd
        simp only [List.getD_eq_getElem?_getD] at hd
        simp [hd] at hf
  · intro sn ts cells hlen hdig
    simp [WaterLevel.legacyRow, hlen, hdig]
  · intro sn ts tds hlen hdig
    rw [WaterLevel.newRow, if_neg (by omega)]
    simp only [hdig, Bool.not_false, if_true]

/-- **C10 witness.** The digit filter at concrete rows: an accepted
12-cell legacy row yields a numeric `bil`; 12-cell rows whose first
cell is `"x"` are rejected by both scrapers. -/
theorem waterlevel_bil_numeric_witness :
    (∃ b, List.lookup "bil"
        ((WaterLevel.legacyRows "Johor" "t0"
          [List.replicate 12 ⟨"7", none⟩]).getD 0 []) = some b
      ∧ pyIsdigit b = true)
    ∧ WaterLevel.legacyRow "Johor" "t0" (List.replicate 12 ⟨"x", none⟩) = none
    ∧ WaterLevel.newRow "Johor" "t0" (List.replicate 12 "x") = none :=
  ⟨waterlevel_bil_numeric.1 "Johor" "t0" [List.replicate 12 ⟨"7", none⟩] _
      (by decide),
   waterlevel_bil_numeric.2.2.1 "Johor" "t0" _ (by decide) (by decide),
   waterlevel_bil_numeric.2.2.2 "Johor" "t0" _ (by decide) (by decide)⟩

/-- **C1 counterexample.** In the waterquality handler the job trigger
is invoked even when the OBS upload failed: with a failed upload the
run's outcome still depends on (and records the invocation of) the
trigger collaborator — a successful trigger yields status 206, a
failing one 500, so `start_cdm_job` was called after a failed upload. -/
theorem wq_trigger_after_failed_upload_cex :
    WaterQuality.wqPublish false (fun _ => .ok "submitted") = (206, true)
    ∧ WaterQuality.wqPublish false (fun _ => .error "cdm down") = (500, true)
    ∧ WaterQuality.wqPublish false (fun _ => .ok "submitted")
        ≠ WaterQuality.wqPublish false (fun _ => .error "cdm down") :=
  ⟨rfl, rfl, by decide⟩

/-- **C1 amended.** The demlevel and water-level handlers invoke the
job trigger only after a successful upload — on upload failure they
return status 500 with the trigger not attempted, independently of the
trigger collaborator's behaviour. The waterquality handler instead
invokes the trigger unconditionally after the upload step, even when
the upload failed (surfacing the partial failure as status 206). -/
theorem publish_trigger_gating (obsResult : DemLevel.UploadResult)
    (upload : WaterLevel.UploadOutcome) (obsSuccess : Bool)
    (trig trig2 : Unit → Except String String) :
    (obsResult.success = false →
      DemLevel.demPublish obsResult trig = (500, false)
      ∧ DemLevel.demPublish obsResult trig = DemLevel.demPublish obsResult trig2)
    ∧ (∀ e, upload = .error e →
      WaterLevel.wlPublish upload trig = (500, false)
      ∧ WaterLevel.wlPublish upload trig = WaterLevel.wlPublish upload trig2)
    ∧ (WaterQuality.wqPublish obsSuccess trig).2 = true := by
  refine ⟨?_, ?_, ?_⟩
  · intro h
    constructor <;> simp [DemLevel.demPublish, h]
  · intro e h
    constructor <;> simp [WaterLevel.wlPublish, h]
  · rw [WaterQuality.wqPublish]
    cases trig () <;> simp

/-- **C1 amended witness.** The gating at concrete collaborator
results: a failed demlevel upload and a raising water-level upload both
stop at 500 without the trigger; the waterquality publish attempts the
trigger even on a failed upload. -/
theorem publish_trigger_gating_witness :
    DemLevel.demPublish ⟨false, some "OBS upload failed"⟩
        (fun _ => .ok "submitted") = (500, false)
    ∧ WaterLevel.wlPublish (.error "OBS upload failed")
        (fun _ => .ok "submitted") = (500, false)
    ∧ (WaterQuality.wqPublish false (fun _ => .ok "submitted")).2 = true :=
  ⟨((publish_trigger_gating ⟨false, some "OBS upload failed"⟩
      (.error "OBS upload failed") false
      (fun _ => .ok "submitted") (fun _ => .ok "submitted")).1 rfl).1,
   ((publish_trigger_gating ⟨false, some "OBS upload failed"⟩
      (.error "OBS upload failed") false
      (fun _ => .ok "submitted") (fun _ => .ok "submitted")).2.1
      "OBS upload failed" rfl).1,
   (publish_trigger_gating ⟨false, some "OBS upload failed"⟩
      (.error "OBS upload failed") false
      (fun _ => .ok "submitted") (fun _ => .ok "submitted")).2.2⟩

lemma wl_itemsToCsv_eq (items : List Item) :
    WaterLevel.itemsToCsv items = Rainfall.itemsToCsv items := rfl

lemma csvLine_length (fs : List String) :
    (csvLine fs).length
      = (String.intercalate "," (fs.map csvField)).length + 2 := by
  rw [csvLine, String.length_append]
  rfl

lemma itemsToCsv_cons_ne_empty (i : Item) (is : List Item) :
    Rainfall.itemsToCsv (i :: is) ≠ "" := by
  intro h
  have hl := congrArg String.length h
  rw [Rainfall.itemsToCsv] at hl
  simp only [List.isEmpty_cons, Bool.false_eq_true, if_false,
    String.length_append, csvLine_length] at hl
  have hz : ("" : String).length = 0 := rfl
  omega

/-- **C5 counterexample.** On an empty dataset every CSV builder in the
repository emits the empty string — not a header-only CSV: the
rainfall and water-level `items_to_csv` return `""` outright, and the
demlevel `save_to_obs` writes an empty CSV with no header. -/
theorem empty_dataset_headerless_cex :
    Rainfall.itemsToCsv [] = ""
    ∧ WaterLevel.itemsToCsv [] = ""
    ∧ DemLevel.demCsvContent [] = "" :=
  ⟨rfl, rfl, rfl⟩

/-- **C5 amended.** When the aggregated dataset contains zero records
the encoders emit an empty string with no header line at all (the
rainfall/water-level `items_to_csv` return `""` exactly on empty input,
and the demlevel CSV assembly writes nothing for zero rows); a
non-empty dataset always produces non-empty text. -/
theorem empty_dataset_encoding :
    (∀ items : List Item, Rainfall.itemsToCsv items = "" ↔ items = [])
    ∧ (∀ items : List Item, WaterLevel.itemsToCsv items = "" ↔ items = [])
    ∧ DemLevel.demCsvContent [] = "" := by
  have hr : ∀ items : List Item, Rainfall.itemsToCsv items = "" ↔ items = [] := by
    intro items
    cases items with
    | nil => simp [Rainfall.itemsToCsv]
    | cons i is =>
      constructor
      · intro h
        exact absurd h (itemsToCsv_cons_ne_empty i is)
      · intro h
        exact absurd h (by simp)
  exact ⟨hr, fun items => (wl_itemsToCsv_eq items) ▸ hr items, rfl⟩

/-- **C5 amended witness.** The encoders at concrete datasets: the
empty dataset yields `""`; a one-record dataset yields non-empty text. -/
theorem empty_dataset_encoding_witness :
    Rainfall.itemsToCsv [] = ""
    ∧ WaterLevel.itemsToCsv ([] : List Item) = ""
    ∧ Rainfall.itemsToCsv [[("state_code", "SEL")]] ≠ "" :=
  ⟨(empty_dataset_encoding.1 []).mpr rfl,
   (empty_dataset_encoding.2.1 []).mpr rfl,
   fun h => absurd ((empty_dataset_encoding.1 _).mp h) (by decide)⟩

/-- **C3 counterexample.** In `_scrape_state_new` a row whose cell
count (13) differs from the scraper's 12-column schema is not dropped:
it is accepted and converted into a record. -/
theorem new_scraper_overlong_row_cex :
    (WaterLevel.newRow "Johor" "t0"
        ["1", "a", "b", "c", "d", "e", "f", "g", "h", "i", "j", "k", "EXTRA"]).isSome
        = true
    ∧ (["1", "a", "b", "c", "d", "e", "f", "g", "h", "i", "j", "k", "EXTRA"] :
        List String).length ≠ 12 :=
  ⟨rfl, by decide⟩

/-- **C3 amended.** A data row is accepted only when its cell count
meets the scraper's expectation — exact equality with the schema's
column count in the rainfall parser and in the legacy water-level
scraper (12 cells), but only *at least 12* in the new water-level
scraper, which keeps rows with extra cells and reads their first 12;
rejected rows are silently dropped while well-formed sibling rows of
the same table are still included. -/
theorem row_cell_count_policy :
    (∀ (top bottom : List String) ds sc sn,
      Rainfall.parseTable (top :: bottom :: ds) sc sn
        = ds.filterMap
            (Rainfall.rowItem (Rainfall.reconcileColumns top bottom) sc sn))
    ∧ (∀ columns sc sn (tds : List String), tds.length ≠ columns.length →
        Rainfall.rowItem columns sc sn tds = none)
    ∧ (∀ columns sc sn (pre post : List (List String)) bad,
        bad.length ≠ columns.length →
        (pre ++ bad :: post).filterMap (Rainfall.rowItem columns sc sn)
          = pre.filterMap (Rainfall.rowItem columns sc sn)
            ++ post.filterMap (Rainfall.rowItem columns sc sn))
    ∧ (∀ sn ts cells, cells.length ≠ 12 →
        WaterLevel.legacyRow sn ts cells = none)
    ∧ (∀ sn ts (tds : List String), 12 ≤ tds.length →
        pyIsdigit (tds.getD 0 "") = true →
        (WaterLevel.newRow sn ts tds).isSome = true) := by
  have hrow : ∀ columns sc sn (tds : List String),
      tds.length ≠ columns.length →
      Rainfall.rowItem columns sc sn tds = none := by
    intro columns sc sn tds h
    rw [Rainfall.rowItem, if_neg h]
  refine ⟨?_, hrow, ?_, ?_, ?_⟩
  · intro top bottom ds sc sn
    cases ds with
    | nil => rfl
    | cons d ds =>
      rw [Rainfall.parseTable, if_neg (by simp)]
      simp [List.getD]
  · intro columns sc sn pre post bad h
    rw [List.filterMap_append, List.filterMap_cons_none (hrow _ _ _ _ h)]
  · intro sn ts cells h
    rw [WaterLevel.legacyRow, if_pos h]
  · intro sn ts tds hlen hdig
    rw [WaterLevel.newRow, if_neg (by omega)]
    simp only [List.getD_eq_getElem?_getD] at hdig
    simp [hdig]

/-- **C3 amended witness.** The row policies at concrete rows: a 1-cell
row fails a 2-column rainfall schema and its well-formed siblings
survive; a 1-cell legacy row is dropped; a 13-cell all-digit-first row
is accepted by the new water-level scraper. -/
theorem row_cell_count_policy_witness :
    Rainfall.rowItem ["c1", "c2"] "S" "N" ["v1"] = none
    ∧ ([["x1", "x2"], ["bad"], ["y1", "y2"]] : List (List String)).filterMap
        (Rainfall.rowItem ["c1", "c2"] "S" "N")
        = [["x1", "x2"]].filterMap (Rainfall.rowItem ["c1", "c2"] "S" "N")
          ++ [["y1", "y2"]].filterMap (Rainfall.rowItem ["c1", "c2"] "S" "N")
    ∧ WaterLevel.legacyRow "J" "t" [⟨"1", none⟩] = none
    ∧ (WaterLevel.newRow "J" "t" (List.replicate 13 "3")).isSome = true :=
  ⟨row_cell_count_policy.2.1 _ "S" "N" _ (by decide),
   row_cell_count_policy.2.2.1 _ "S" "N" [["x1", "x2"]] [["y1", "y2"]]
     ["bad"] (by decide),
   row_cell_count_policy.2.2.2.1 "J" "t" _ (by decide),
   row_cell_count_policy.2.2.2.2 "J" "t" _ (by decide) (by decide)⟩

lemma listLeB_total (a : List Char) : ∀ b,
    WaterQuality.listLeB a b = true ∨ WaterQuality.listLeB b a = true := by
  induction a with
  | nil => intro b; left; rfl
  | cons x xs ih =>
    intro b
    cases b with
    | nil => right; rfl
    | cons y ys =>
      rcases Nat.lt_trichotomy x.toNat y.toNat with h | h | h
      · left
        simp [WaterQuality.listLeB, h]
      · have h1 : ¬ x.toNat < y.toNat := by omega
        have h2 : ¬ y.toNat < x.toNat := by omega
        simpa [WaterQuality.listLeB, h1, h2] using ih ys
      · right
        simp [WaterQuality.listLeB, h, show ¬ x.toNat < y.toNat by omega]

lemma strLeB_total (a b : String) :
    WaterQuality.strLeB a b = true ∨ WaterQuality.strLeB b a = true :=
  listLeB_total a.toList b.toList

lemma insSorted_perm (s : String) (l : List String) :
    (WaterQuality.insSorted s l).Perm (s :: l) := by
  induction l with
  | nil => exact List.Perm.refl _
  | cons h t ih =>
    rw [WaterQuality.insSorted]
    by_cases hc : WaterQuality.strLeB s h = true
    · rw [if_pos hc]
    · rw [if_neg hc]
      exact (ih.cons h).trans (List.Perm.swap s h t)

lemma sortStrings_perm (l : List String) :
    (WaterQuality.sortStrings l).Perm l := by
  induction l with
  | nil => exact List.Perm.refl _
  | cons h t ih =>
    rw [WaterQuality.sortStrings]
    exact (insSorted_perm h _).trans (ih.cons h)

lemma chain'_insSorted (s : String) (l : List String)
    (h : List.Chain' (fun a b => WaterQuality.strLeB a b = true) l) :
    List.Chain' (fun a b => WaterQuality.strLeB a b = true)
      (WaterQuality.insSorted s l) := by
  induction l with
  | nil => simp [WaterQuality.insSorted]
  | cons x t ih =>
    rw [WaterQuality.insSorted]
    by_cases hc : WaterQuality.strLeB s x = true
    · rw [if_pos hc]
      exact List.chain'_cons.mpr ⟨hc, h⟩
    · rw [if_neg hc]
      have hxs : WaterQuality.strLeB x s = true := by
        rcases strLeB_total s x with h1 | h1
        · exact absurd h1 hc
        · exact h1
      obtain ⟨hhead, ht⟩ := List.chain'_cons'.mp h
      apply List.chain'_cons'.mpr
      refine ⟨?_, ih ht⟩
      intro b hb
      cases t with
      | nil =>
        simp [WaterQuality.insSorted] at hb
        subst hb
        exact hxs
      | cons y ys =>
        rw [WaterQuality.insSorted] at hb
        by_cases hcy : WaterQuality.strLeB s y = true
        · rw [if_pos hcy] at hb
          simp at hb
          subst hb
          exact hxs
        · rw [if_neg hcy] at hb
          simp at hb
          subst hb
          exact hhead y (by simp)

lemma chain'_sortStrings (l : List String) :
    List.Chain' (fun a b => WaterQuality.strLeB a b = true)
      (WaterQuality.sortStrings l) := by
  induction l with
  | nil => simp [WaterQuality.sortStrings]
  | cons h t ih =>
    rw [WaterQuality.sortStrings]
    exact chain'_insSorted h _ ih

lemma moveMetaFront_eq (ks : List String) (h1 : "state_code" ∈ ks)
    (h2 : "state_name" ∈ ks) :
    Rainfall.moveMetaFront ks
      = "state_name" :: "state_code"
          :: ((ks.erase "state_code").erase "state_name") := by
  rw [Rainfall.moveMetaFront]
  simp only [List.foldl_cons, List.foldl_nil]
  have hc1 : ks.contains "state_code" = true := by
    simpa using h1
  rw [if_pos hc1]
  have hm2 : ("state_name" : String)
      ∈ "state_code" :: ks.erase "state_code" := by
    exact List.mem_cons_of_mem _
      ((List.mem_erase_of_ne (by decide)).mpr h2)
  have hc2 : ("state_code" :: ks.erase "state_code").contains "state_name"
      = true := by
    simpa using hm2
  rw [if_pos hc2]
  have he : ("state_code" :: ks.erase "state_code").erase "state_name"
      = "state_code" :: (ks.erase "state_code").erase "state_name" := by
    rw [List.erase_cons]
    simp
  rw [he]

/-- **C4 counterexample.** The waterquality scraper's header list is
produced by an alphabetical sort: with a single record whose keys occur
in the order `state_name`, `ZITEM`, `AITEM`, the first-seen union is
`[state_name, ZITEM, AITEM]`, but `scrape_waterquality` returns the
sorted `[AITEM, ZITEM, state_name]` — metadata is not in front and the
order is not first-seen. -/
theorem wq_sorted_headers_cex :
    WaterQuality.headerSet [[("state_name", "Johor"), ("ZITEM", "9"),
        ("AITEM", "8")]]
      = ["state_name", "ZITEM", "AITEM"]
    ∧ WaterQuality.headersList [[("state_name", "Johor"), ("ZITEM", "9"),
        ("AITEM", "8")]]
      = ["AITEM", "ZITEM", "state_name"]
    ∧ (["AITEM", "ZITEM", "state_name"] : List String)
        ≠ ["state_name", "ZITEM", "AITEM"] :=
  ⟨by decide, by decide, by decide⟩

/-- **C4 amended.** The rainfall/water-level `items_to_csv` column list
is the first-seen union of record keys with `state_name` then
`state_code` moved to the front, never sorted; the waterquality
scraper's header list is instead the alphabetically sorted union of all
record keys (ascending, with the same membership). -/
theorem encoder_column_order :
    (∀ items : List Item, "state_code" ∈ Rainfall.collectKeys items →
      "state_name" ∈ Rainfall.collectKeys items →
      Rainfall.buildFieldnames items
        = "state_name" :: "state_code"
            :: (((Rainfall.collectKeys items).erase "state_code").erase
                  "state_name"))
    ∧ (∀ rows : List Item,
        List.Chain' (fun a b => WaterQuality.strLeB a b = true)
          (WaterQuality.headersList rows))
    ∧ (∀ (rows : List Item) k, k ∈ WaterQuality.headersList rows
        ↔ k ∈ WaterQuality.headerSet rows) := by
  refine ⟨?_, ?_, ?_⟩
  · intro items h1 h2
    rw [Rainfall.buildFieldnames, moveMetaFront_eq _ h1 h2]
  · intro rows
    exact chain'_sortStrings _
  · intro rows k
    exact (sortStrings_perm _).mem_iff

/-- **C4 amended witness.** The column orders at concrete records: the
rainfall encoder moves the metadata keys to the front of the first-seen
order; the waterquality header list is sorted while still containing
exactly the seen keys. -/
theorem encoder_column_order_witness :
    Rainfall.buildFieldnames
        [[("state_code", "SEL"), ("state_name", "Selangor"), ("Bil", "1")]]
      = ["state_name", "state_code", "Bil"]
    ∧ List.Chain' (fun a b => WaterQuality.strLeB a b = true)
        (WaterQuality.headersList [[("B", "1"), ("A", "2")]])
    ∧ ("A" ∈ WaterQuality.headersList [[("B", "1"), ("A", "2")]]
        ↔ "A" ∈ WaterQuality.headerSet [[("B", "1"), ("A", "2")]]) :=
  ⟨(encoder_column_order.1 _ (by decide) (by decide)).trans (by decide),
   encoder_column_order.2.1 _,
   encoder_column_order.2.2 _ "A"⟩

lemma keys_dictSet_of_not_mem {α : Type} (d : List (String × α)) (k : String)
    (v : α) (h : k ∉ keys d) :
    keys (dictSet d k v) = keys d ++ [k] := by
  rw [dictSet, if_neg ?_]
  · simp [keys]
  · intro hany
    rw [List.any_eq_true] at hany
    obtain ⟨p, hp, hpk⟩ := hany
    exact h (List.mem_map.mpr ⟨p, hp, by simpa using hpk⟩)

lemma keys_foldl_dictSet {α : Type} (ps : List (String × α)) :
    ∀ d : List (String × α), (ps.map Prod.fst).Nodup →
    (∀ k ∈ ps.map Prod.fst, k ∉ keys d) →
    keys (ps.foldl (fun a kv => dictSet a kv.1 kv.2) d)
      = keys d ++ ps.map Prod.fst := by
  induction ps with
  | nil =>
    intro d _ _
    simp
  | cons kv ps ih =>
    intro d hnd hfresh
    rw [List.foldl_cons]
    have hk : kv.1 ∉ keys d := hfresh kv.1 (by simp)
    have hstep := keys_dictSet_of_not_mem d kv.1 kv.2 hk
    rw [ih (dictSet d kv.1 kv.2)
      (List.nodup_cons.mp (by simpa using hnd)).2 ?_, hstep]
    · simp
    · intro k hkmem
      rw [hstep]
      intro hkin
      rcases List.mem_append.mp hkin with hkd | hkk
      · exact hfresh k (by simp [hkmem]) hkd
      · have hne : kv.1 ∉ ps.map Prod.fst :=
          (List.nodup_cons.mp (by simpa using hnd)).1
        simp at hkk
        subst hkk
        exact hne hkmem

lemma map_fst_zip_take {α β : Type} (l1 : List α) :
    ∀ l2 : List β, (l1.zip l2).map Prod.fst = l1.take l2.length := by
  induction l1 with
  | nil =>
    intro l2
    simp
  | cons a as ih =>
    intro l2
    cases l2 with
    | nil => simp
    | cons b bs => simp [ih]

/-- **C8 counterexample.** In the demlevel scraper a row with 8 cells
under a 10-column header is not dropped: it produces a record whose
field set is missing schema column `"c9"`. -/
theorem dem_short_row_missing_column_cex :
    (DemLevel.damRows
        ["c1", "c2", "c3", "c4", "c5", "c6", "c7", "c8", "c9", "c10"] 1 "Johor"
        [List.replicate 8 ⟨"v", ""⟩]).length = 1
    ∧ "c9" ∉ keys ((DemLevel.damRows
        ["c1", "c2", "c3", "c4", "c5", "c6", "c7", "c8", "c9", "c10"] 1 "Johor"
        [List.replicate 8 ⟨"v", ""⟩]).getD 0 [])
    ∧ "c9" ∈ (["c1", "c2", "c3", "c4", "c5", "c6", "c7", "c8", "c9", "c10"] :
        List String) := by
  decide

/-- **C8 amended.** A rainfall record's field set is exactly the two
metadata fields followed by the schema columns (no extra, no missing,
for a row whose cell count matches a duplicate-free schema). A demlevel
record's field set is the first `min(cells, header)` header columns
plus the four fixed injected fields — so a row with at least 8 cells
but fewer cells than header columns yields a record missing the
trailing schema columns rather than being dropped. -/
theorem record_field_sets :
    (∀ sc sn (columns tds : List String), tds.length = columns.length →
      columns.Nodup → "state_code" ∉ columns → "state_name" ∉ columns →
      keys (Rainfall.buildItem sc sn columns tds)
        = "state_code" :: "state_name" :: columns)
    ∧ (∀ (baseColumns values : List String) semalam semasa sid sname,
        values.length ≤ baseColumns.length → baseColumns.Nodup →
        (∀ c ∈ baseColumns,
          c ∉ (["Kategori Simpanan Semalam", "Kategori Simpanan Semasa",
                "state_id", "state_name"] : List String)) →
        keys (DemLevel.buildDamItem baseColumns values semalam semasa sid sname)
          = baseColumns.take values.length
            ++ ["Kategori Simpanan Semalam", "Kategori Simpanan Semasa",
                "state_id", "state_name"]) := by
  constructor
  · intro sc sn columns tds hlen hnd h1 h2
    rw [Rainfall.buildItem]
    have hmap : (columns.zip tds).map Prod.fst = columns := by
      rw [map_fst_zip_take, hlen, List.take_length]
    rw [keys_foldl_dictSet _ _ (by rw [hmap]; exact hnd) ?_, hmap]
    · rfl
    · intro k hkm
      rw [hmap] at hkm
      intro hk
      simp [keys] at hk
      rcases hk with rfl | rfl
      · exact h1 hkm
      · exact h2 hkm
  · intro baseColumns values semalam semasa sid sname hlen hnd hext
    simp only [DemLevel.buildDamItem]
    have hmap : (baseColumns.zip (values.map some)).map Prod.fst
        = baseColumns.take values.length := by
      rw [map_fst_zip_take, List.length_map]
    have htakesub : ∀ k, k ∈ baseColumns.take values.length →
        k ∈ baseColumns := fun k hk => List.take_subset _ _ hk
    have h0 : keys ((baseColumns.zip (values.map some)).foldl
        (fun d kv => dictSet d kv.1 kv.2) ([] : DemLevel.DItem))
        = baseColumns.take values.length := by
      rw [keys_foldl_dictSet _ _
        (by rw [hmap]; exact hnd.sublist (List.take_sublist _ _)) ?_, hmap]
      · rfl
      · intro k _
        simp [keys]
    have e1 : ("Kategori Simpanan Semalam" : String)
        ∉ baseColumns.take values.length := by
      intro hk
      exact hext _ (htakesub _ hk) (by simp)
    have e2 : ("Kategori Simpanan Semasa" : String)
        ∉ baseColumns.take values.length := by
      intro hk
      exact hext _ (htakesub _ hk) (by simp)
    have e3 : ("state_id" : String) ∉ baseColumns.take values.length := by
      intro hk
      exact hext _ (htakesub _ hk) (by simp)
    have e4 : ("state_name" : String) ∉ baseColumns.take values.length := by
      intro hk
      exact hext _ (htakesub _ hk) (by simp)
    rw [keys_dictSet_of_not_mem, keys_dictSet_of_not_mem,
      keys_dictSet_of_not_mem, keys_dictSet_of_not_mem, h0]
    · simp
    · rw [h0]
      exact e1
    · rw [keys_dictSet_of_not_mem _ _ _ (by rw [h0]; exact e1), h0]
      intro hk
      rcases List.mem_append.mp hk with hk | hk
      · exact e2 hk
      · simp at hk
    · rw [keys_dictSet_of_not_mem, keys_dictSet_of_not_mem _ _ _
        (by rw [h0]; exact e1), h0]
      · intro hk
        rcases List.mem_append.mp hk with hk | hk
        · rcases List.mem_append.mp hk with hk | hk
          · exact e3 hk
          · simp at hk
        · simp at hk
      · rw [keys_dictSet_of_not_mem _ _ _ (by rw [h0]; exact e1), h0]
        intro hk
        rcases List.mem_append.mp hk with hk | hk
        · exact e2 hk
        · simp at hk
    · rw [keys_dictSet_of_not_mem, keys_dictSet_of_not_mem,
        keys_dictSet_of_not_mem _ _ _ (by rw [h0]; exact e1), h0]
      · intro hk
        rcases List.mem_append.mp hk with hk | hk
        · rcases List.mem_append.mp hk with hk | hk
          · rcases List.mem_append.mp hk with hk | hk
            · exact e4 hk
            · simp at hk
          · simp at hk
        · simp at hk
      · rw [keys_dictSet_of_not_mem _ _ _ (by rw [h0]; exact e1), h0]
        intro hk
        rcases List.mem_append.mp hk with hk | hk
        · exact e2 hk
        · simp at hk
      · rw [keys_dictSet_of_not_mem, keys_dictSet_of_not_mem _ _ _
          (by rw [h0]; exact e1), h0]
        · intro hk
          rcases List.mem_append.mp hk with hk | hk
          · rcases List.mem_append.mp hk with hk | hk
            · exact e3 hk
            · simp at hk
          · simp at hk
        · rw [keys_dictSet_of_not_mem _ _ _ (by rw [h0]; exact e1), h0]
          intro hk
          rcases List.mem_append.mp hk with hk | hk
          · exact e2 hk
          · simp at hk

/-- **C8 amended witness.** The record field sets at concrete rows: a
matched rainfall row carries exactly metadata plus schema; a demlevel
row with 1 value under a 2-column header carries only the first header
column plus the four injected fields. -/
theorem record_field_sets_witness :
    keys (Rainfall.buildItem "SEL" "Selangor" ["Bil", "ID"] ["1", "X"])
      = ["state_code", "state_name", "Bil", "ID"]
    ∧ keys (DemLevel.buildDamItem ["Empangan", "Paras"] ["D1"] none
        (some "Paras Normal") 1 "Johor")
      = ["Empangan", "Kategori Simpanan Semalam", "Kategori Simpanan Semasa",
         "state_id", "state_name"] :=
  ⟨record_field_sets.1 "SEL" "Selangor" _ _ (by decide) (by decide)
      (by decide) (by decide),
   (record_field_sets.2 ["Empangan", "Paras"] ["D1"] none
      (some "Paras Normal") 1 "Johor" (by decide) (by decide)
      (by decide)).trans (by decide)⟩

end Nahrim

